import Mathlib

/-!
Verification of the group status/subscription resolver and the
processing-issue schema of the sentry excerpt.

The repository sources provide two files: the `ProcessingIssue` /
`ProcessingIssueGroup` model definitions (with the manager method
`record_problem`), and the test suite for serialization of a Group.
The serializer itself is not among the sources, so its derivation logic
is modelled from the specification (section 4.1) and cross-checked
against the expectations of the provided tests.

Timestamps are modelled as integers; record references (projects,
releases, users, groups) as natural-number identifiers; the gzipped
dictionary fields as association lists of string pairs.
-/

namespace Sentry

/-- Stored status enum of a Group (`GroupStatus` in the sources). -/
inductive GroupStatus
  | unresolved
  | resolved
  | ignored
deriving DecidableEq, Repr

/-- A Group aggregate: its stored status together with the derived boolean
`is_over_resolve_age()`, which the resolver consumes as an input (the
tests patch it directly). -/
structure Group where
  status : GroupStatus
  is_over_resolve_age : Bool
deriving DecidableEq, Repr

/-- A Snooze record: `until` is a nullable timestamp, null meaning
an indefinite snooze. -/
structure GroupSnooze where
  until_ : Option Int
deriving DecidableEq, Repr

/-- Modelled from the spec: the snooze validity rule ("Valid (active) iff
`until` is null or in the future relative to evaluation time"); the
`GroupSnooze.is_valid` method itself is not among the provided sources. -/
def GroupSnooze.is_valid (s : GroupSnooze) (now : Int) : Bool :=
  match s.until_ with
  | none => true
  | some t => now < t

/-- Status enum of a Resolution record (`GroupResolutionStatus`):
pending, or resolved meaning the resolution condition already fired. -/
inductive GroupResolutionStatus
  | pending
  | resolved
deriving DecidableEq, Repr

/-- A Resolution record: a nullable release reference and its own status. -/
structure GroupResolution where
  release : Option Nat
  status : GroupResolutionStatus
deriving DecidableEq, Repr

/-- An explicit Subscription record for a (user, group) pair: active flag
and a reason, whose default value is "unknown". -/
structure GroupSubscription where
  is_active : Bool
  reason : String
deriving DecidableEq, Repr

/-- Values of the `workflow:notifications` user option. -/
inductive UserOptionValue
  | all_conversations
  | participating_only
  | no_conversations
deriving DecidableEq, Repr

/-- The `statusDetails` mapping of the serialized output.  In every case
the spec describes, the mapping is either empty or holds exactly one key,
so it is modelled as a closed variant type: `empty` is the empty mapping,
`ignoreUntil t` the mapping with single key ignoreUntil and (nullable)
timestamp value, `inNextRelease` the mapping with inNextRelease set to
true, and `autoResolved` the mapping with autoResolved set to true. -/
inductive StatusDetails
  | empty
  | ignoreUntil (t : Option Int)
  | inNextRelease
  | autoResolved
deriving DecidableEq, Repr

/-- The `subscriptionDetails` part of the serialized output: `absent`
means the key is not present in the result at all, `disabled` the mapping
with disabled set to true, and `reason r` the mapping with single key
reason and value r. -/
inductive SubscriptionDetails
  | absent
  | disabled
  | reason (r : String)
deriving DecidableEq, Repr

/-- The serialized, user-facing view of a group produced by the resolver:
status (one of the strings "unresolved", "resolved", "ignored"),
the statusDetails mapping, the isSubscribed boolean and the
subscriptionDetails mapping (or its absence). -/
structure SerializedGroup where
  status : String
  statusDetails : StatusDetails
  isSubscribed : Bool
  subscriptionDetails : SubscriptionDetails
deriving DecidableEq, Repr

/-- Modelled from the spec: the status derivation of the Group serializer
(spec section 4.1, "Status derivation"); the serializer source itself is
not among the provided files, only its tests.  Evaluated in the spec's
precedence: stored IGNORED consults the snooze, stored RESOLVED consults
the Resolution record, and only a stored UNRESOLVED group is auto-resolved
by age. -/
def serializeStatus (g : Group) (snooze : Option GroupSnooze)
    (resolution : Option GroupResolution) (now : Int) : String × StatusDetails :=
  match g.status with
  | GroupStatus.ignored =>
    match snooze with
    | some s =>
      if s.is_valid now then ("ignored", StatusDetails.ignoreUntil s.until_)
      else ("unresolved", StatusDetails.empty)
    | none => ("unresolved", StatusDetails.empty)
  | GroupStatus.resolved =>
    match resolution with
    | some r =>
      if r.release.isSome && r.status == GroupResolutionStatus.pending then
        ("resolved", StatusDetails.inNextRelease)
      else ("resolved", StatusDetails.empty)
    | none => ("resolved", StatusDetails.empty)
  | GroupStatus.unresolved =>
    if g.is_over_resolve_age then ("resolved", StatusDetails.autoResolved)
    else ("unresolved", StatusDetails.empty)

/-- Modelled from the spec: resolution of the effective notification
preference (spec section 4.1, subscription derivation, step 1): the
project-scoped preference when set, otherwise the user's global
(project-null) preference, otherwise all_conversations. -/
def effectivePreference (projectPref globalPref : Option UserOptionValue) :
    UserOptionValue :=
  match projectPref with
  | some p => p
  | none =>
    match globalPref with
    | some p => p
    | none => UserOptionValue.all_conversations

/-- Modelled from the spec: the subscription derivation of the Group
serializer (spec section 4.1, subscription derivation, steps 2-4); the
serializer source itself is not among the provided files, only its tests.
Takes the optional viewing user, the preference-lookup capability keyed
by (user, project-or-null), the project of the group, and the optional
explicit Subscription record for (user, group). -/
def serializeSubscription (user : Option Nat)
    (prefLookup : Nat → Option Nat → Option UserOptionValue)
    (projectId : Nat) (subscription : Option GroupSubscription) :
    Bool × SubscriptionDetails :=
  match user with
  | none => (false, SubscriptionDetails.absent)
  | some u =>
    let pref := effectivePreference (prefLookup u (some projectId)) (prefLookup u none)
    if pref == UserOptionValue.no_conversations then
      (false, SubscriptionDetails.disabled)
    else
      match subscription with
      | some s =>
        if s.is_active then (true, SubscriptionDetails.reason s.reason)
        else (false, SubscriptionDetails.absent)
      | none =>
        match pref with
        | UserOptionValue.all_conversations => (true, SubscriptionDetails.absent)
        | _ => (false, SubscriptionDetails.absent)

/-- Modelled from the spec: the full Group Status and Subscription
Resolver (spec section 4.1).  The status part and the subscription part
are independent; collaborators supply the group, the optional viewing
user, the optional snooze, resolution and subscription records, and the
preference lookup. -/
def serialize (g : Group) (user : Option Nat)
    (snooze : Option GroupSnooze) (resolution : Option GroupResolution)
    (subscription : Option GroupSubscription)
    (prefLookup : Nat → Option Nat → Option UserOptionValue)
    (projectId : Nat) (now : Int) : SerializedGroup :=
  let st := serializeStatus g snooze resolution now
  let sub := serializeSubscription user prefLookup projectId subscription
  { status := st.1
    statusDetails := st.2
    isSubscribed := sub.1
    subscriptionDetails := sub.2 }

/-- A preference store with no entries at all, used in cross-checks. -/
def noPrefs : Nat → Option Nat → Option UserOptionValue := fun _ _ => none

/-- A preference store holding the given global (project-null) and
project-scoped values for every user, used in cross-checks. -/
def prefsOf (globalPref : Option UserOptionValue)
    (projectPref : Option UserOptionValue) : Nat → Option Nat → Option UserOptionValue :=
  fun _ proj => match proj with
    | none => globalPref
    | some _ => projectPref

/- Cross-checks of the spec-modelled resolver against the expectations of
the provided test suite (test_group.py), one per test method. -/

example :  -- test_is_ignored_with_expired_snooze: until one minute in the past
    serialize ⟨GroupStatus.ignored, false⟩ (some 1) (some ⟨some (-60)⟩) none none
      noPrefs 1 0 = ⟨"unresolved", StatusDetails.empty, true, SubscriptionDetails.absent⟩ := rfl

example :  -- test_is_ignored_with_valid_snooze: until one minute in the future
    serialize ⟨GroupStatus.ignored, false⟩ (some 1) (some ⟨some 60⟩) none none
      noPrefs 1 0
      = ⟨"ignored", StatusDetails.ignoreUntil (some 60), true, SubscriptionDetails.absent⟩ := rfl

example :  -- test_resolved_in_next_release: pending resolution with release
    serialize ⟨GroupStatus.resolved, false⟩ (some 1) none
      (some ⟨some 10, GroupResolutionStatus.pending⟩) none noPrefs 1 0
      = ⟨"resolved", StatusDetails.inNextRelease, true, SubscriptionDetails.absent⟩ := rfl

example :  -- test_resolved_in_next_release_expired_resolution
    serialize ⟨GroupStatus.resolved, false⟩ (some 1) none
      (some ⟨some 10, GroupResolutionStatus.resolved⟩) none noPrefs 1 0
      = ⟨"resolved", StatusDetails.empty, true, SubscriptionDetails.absent⟩ := rfl

example :  -- test_auto_resolved: unresolved and over resolve age
    serialize ⟨GroupStatus.unresolved, true⟩ (some 1) none none none noPrefs 1 0
      = ⟨"resolved", StatusDetails.autoResolved, true, SubscriptionDetails.absent⟩ := rfl

example :  -- test_subscribed: active subscription, default reason
    serialize ⟨GroupStatus.unresolved, false⟩ (some 1) none none
      (some ⟨true, "unknown"⟩) noPrefs 1 0
      = ⟨"unresolved", StatusDetails.empty, true, SubscriptionDetails.reason "unknown"⟩ := rfl

example :  -- test_explicit_unsubscribed: inactive subscription
    serialize ⟨GroupStatus.unresolved, false⟩ (some 1) none none
      (some ⟨false, "unknown"⟩) noPrefs 1 0
      = ⟨"unresolved", StatusDetails.empty, false, SubscriptionDetails.absent⟩ := rfl

/-- The subscription outcome of a (global, project) preference pair with no
explicit subscription, as the test table of test_implicit_subscribed lists
them. -/
def implicitOutcome (globalPref projectPref : Option UserOptionValue) :
    Bool × SubscriptionDetails :=
  let r := serialize ⟨GroupStatus.unresolved, false⟩ (some 1) none none none
    (prefsOf globalPref projectPref) 1 0
  (r.isSubscribed, r.subscriptionDetails)

example :  -- test_implicit_subscribed, all thirteen rows of the table
    implicitOutcome none none = (true, SubscriptionDetails.absent) ∧
    implicitOutcome (some UserOptionValue.all_conversations) none
      = (true, SubscriptionDetails.absent) ∧
    implicitOutcome (some UserOptionValue.all_conversations)
      (some UserOptionValue.all_conversations) = (true, SubscriptionDetails.absent) ∧
    implicitOutcome (some UserOptionValue.all_conversations)
      (some UserOptionValue.participating_only) = (false, SubscriptionDetails.absent) ∧
    implicitOutcome (some UserOptionValue.all_conversations)
      (some UserOptionValue.no_conversations) = (false, SubscriptionDetails.disabled) ∧
    implicitOutcome (some UserOptionValue.participating_only) none
      = (false, SubscriptionDetails.absent) ∧
    implicitOutcome (some UserOptionValue.participating_only)
      (some UserOptionValue.all_conversations) = (true, SubscriptionDetails.absent) ∧
    implicitOutcome (some UserOptionValue.participating_only)
      (some UserOptionValue.participating_only) = (false, SubscriptionDetails.absent) ∧
    implicitOutcome (some UserOptionValue.participating_only)
      (some UserOptionValue.no_conversations) = (false, SubscriptionDetails.disabled) ∧
    implicitOutcome (some UserOptionValue.no_conversations) none
      = (false, SubscriptionDetails.disabled) ∧
    implicitOutcome (some UserOptionValue.no_conversations)
      (some UserOptionValue.all_conversations) = (true, SubscriptionDetails.absent) ∧
    implicitOutcome (some UserOptionValue.no_conversations)
      (some UserOptionValue.participating_only) = (false, SubscriptionDetails.absent) ∧
    implicitOutcome (some UserOptionValue.no_conversations)
      (some UserOptionValue.no_conversations) = (false, SubscriptionDetails.disabled) := by
  refine ⟨rfl, rfl, rfl, rfl, rfl, rfl, rfl, rfl, rfl, rfl, rfl, rfl, rfl⟩

example :  -- test_global_no_conversations_overrides_group_subscription
    serialize ⟨GroupStatus.unresolved, false⟩ (some 1) none none
      (some ⟨true, "unknown"⟩) (prefsOf (some UserOptionValue.no_conversations) none) 1 0
      = ⟨"unresolved", StatusDetails.empty, false, SubscriptionDetails.disabled⟩ := rfl

example :  -- test_project_no_conversations_overrides_group_subscription
    serialize ⟨GroupStatus.unresolved, false⟩ (some 1) none none
      (some ⟨true, "unknown"⟩) (prefsOf none (some UserOptionValue.no_conversations)) 1 0
      = ⟨"unresolved", StatusDetails.empty, false, SubscriptionDetails.disabled⟩ := rfl

example :  -- test_no_user_unsubscribed
    serialize ⟨GroupStatus.unresolved, false⟩ none none none none noPrefs 1 0
      = ⟨"unresolved", StatusDetails.empty, false, SubscriptionDetails.absent⟩ := rfl

/-- C1: for every group whose stored status is IGNORED, serialize reports
status "ignored" with statusDetails carrying ignoreUntil = snooze.until
when an active snooze exists (until null or in the future at evaluation
time), and reports status "unresolved" with empty statusDetails when the
snooze is absent or its until does not lie in the future. -/
theorem claim_C1 (g : Group) (user : Option Nat) (snooze : Option GroupSnooze)
    (resolution : Option GroupResolution) (subscription : Option GroupSubscription)
    (prefLookup : Nat → Option Nat → Option UserOptionValue) (projectId : Nat)
    (now : Int) (r : SerializedGroup)
    (hg : g.status = GroupStatus.ignored)
    (hr : serialize g user snooze resolution subscription prefLookup projectId now = r) :
    (∀ s, snooze = some s → (s.until_ = none ∨ ∃ t, s.until_ = some t ∧ now < t) →
      r.status = "ignored" ∧ r.statusDetails = StatusDetails.ignoreUntil s.until_) ∧
    ((snooze = none ∨ ∃ s t, snooze = some s ∧ s.until_ = some t ∧ t ≤ now) →
      r.status = "unresolved" ∧ r.statusDetails = StatusDetails.empty) := by
  subst hr
  constructor
  · rintro s rfl hactive
    have hv : s.is_valid now = true := by
      rcases hactive with h | ⟨t, ht, hlt⟩
      · simp [GroupSnooze.is_valid, h]
      · simp [GroupSnooze.is_valid, ht, hlt]
    simp [serialize, serializeStatus, hg, hv]
  · rintro (rfl | ⟨s, t, rfl, ht, hle⟩)
    · simp [serialize, serializeStatus, hg]
    · have hv : s.is_valid now = false := by
        simp [GroupSnooze.is_valid, ht]
        omega
      simp [serialize, serializeStatus, hg, hv]

/-- C1 witness: a concrete ignored group with a snooze whose until is in
the future is reported ignored with that until in the details. -/
theorem claim_C1_witness :
    (serialize ⟨GroupStatus.ignored, false⟩ (some 1) (some ⟨some 60⟩) none none
      noPrefs 1 0).status = "ignored" ∧
    (serialize ⟨GroupStatus.ignored, false⟩ (some 1) (some ⟨some 60⟩) none none
      noPrefs 1 0).statusDetails = StatusDetails.ignoreUntil (some 60) :=
  (claim_C1 ⟨GroupStatus.ignored, false⟩ (some 1) (some ⟨some 60⟩) none none
      noPrefs 1 0 _ rfl rfl).1 ⟨some 60⟩ rfl (Or.inr ⟨60, rfl, by norm_num⟩)

/-- C2: for every viewing user whose effective notification preference
(project-scoped if set, else global) is no_conversations, serialize
returns isSubscribed = false and subscriptionDetails disabled, for every
value of the explicit Subscription record, in particular when an active
one exists. -/
theorem claim_C2 (g : Group) (u : Nat) (snooze : Option GroupSnooze)
    (resolution : Option GroupResolution) (subscription : Option GroupSubscription)
    (prefLookup : Nat → Option Nat → Option UserOptionValue) (projectId : Nat)
    (now : Int) (r : SerializedGroup)
    (hpref : effectivePreference (prefLookup u (some projectId)) (prefLookup u none)
      = UserOptionValue.no_conversations)
    (hr : serialize g (some u) snooze resolution subscription prefLookup projectId now = r) :
    r.isSubscribed = false ∧ r.subscriptionDetails = SubscriptionDetails.disabled := by
  subst hr
  simp [serialize, serializeSubscription, hpref]

/-- C2 witness: a concrete user with a global no_conversations preference
and an active explicit subscription is still reported unsubscribed with
disabled details. -/
theorem claim_C2_witness :
    (serialize ⟨GroupStatus.unresolved, false⟩ (some 1) none none
      (some ⟨true, "unknown"⟩) (prefsOf (some UserOptionValue.no_conversations) none)
      1 0).isSubscribed = false ∧
    (serialize ⟨GroupStatus.unresolved, false⟩ (some 1) none none
      (some ⟨true, "unknown"⟩) (prefsOf (some UserOptionValue.no_conversations) none)
      1 0).subscriptionDetails = SubscriptionDetails.disabled :=
  claim_C2 ⟨GroupStatus.unresolved, false⟩ 1 none none (some ⟨true, "unknown"⟩)
    (prefsOf (some UserOptionValue.no_conversations) none) 1 0 _ rfl rfl

/-- C3: for every viewing user with no explicit Subscription record, the
effective preference is the project-scoped preference when set, otherwise
the global (project-null) preference, otherwise all_conversations; and
the derived result is: all_conversations gives isSubscribed = true with
no subscriptionDetails, participating_only gives isSubscribed = false
with no subscriptionDetails, no_conversations gives isSubscribed = false
with subscriptionDetails disabled. -/
theorem claim_C3 (g : Group) (u : Nat) (snooze : Option GroupSnooze)
    (resolution : Option GroupResolution)
    (prefLookup : Nat → Option Nat → Option UserOptionValue) (projectId : Nat)
    (now : Int) (r : SerializedGroup)
    (hr : serialize g (some u) snooze resolution none prefLookup projectId now = r) :
    (∀ p, prefLookup u (some projectId) = some p →
      effectivePreference (prefLookup u (some projectId)) (prefLookup u none) = p) ∧
    (∀ p, prefLookup u (some projectId) = none → prefLookup u none = some p →
      effectivePreference (prefLookup u (some projectId)) (prefLookup u none) = p) ∧
    (prefLookup u (some projectId) = none → prefLookup u none = none →
      effectivePreference (prefLookup u (some projectId)) (prefLookup u none)
        = UserOptionValue.all_conversations) ∧
    (effectivePreference (prefLookup u (some projectId)) (prefLookup u none)
        = UserOptionValue.all_conversations →
      r.isSubscribed = true ∧ r.subscriptionDetails = SubscriptionDetails.absent) ∧
    (effectivePreference (prefLookup u (some projectId)) (prefLookup u none)
        = UserOptionValue.participating_only →
      r.isSubscribed = false ∧ r.subscriptionDetails = SubscriptionDetails.absent) ∧
    (effectivePreference (prefLookup u (some projectId)) (prefLookup u none)
        = UserOptionValue.no_conversations →
      r.isSubscribed = false ∧ r.subscriptionDetails = SubscriptionDetails.disabled) := by
  subst hr
  refine ⟨?_, ?_, ?_, ?_, ?_, ?_⟩
  · intro p hp; simp [effectivePreference, hp]
  · intro p hp hgl; simp [effectivePreference, hp, hgl]
  · intro hp hgl; simp [effectivePreference, hp, hgl]
  · intro heff; simp [serialize, serializeSubscription, heff]
  · intro heff; simp [serialize, serializeSubscription, heff]
  · intro heff; simp [serialize, serializeSubscription, heff]

/-- C3 witness: with no preference set anywhere and no subscription, the
effective preference is all_conversations and the concrete user is
reported subscribed with no details. -/
theorem claim_C3_witness :
    effectivePreference (noPrefs 7 (some 3)) (noPrefs 7 none)
      = UserOptionValue.all_conversations ∧
    (serialize ⟨GroupStatus.unresolved, false⟩ (some 7) none none none noPrefs
      3 0).isSubscribed = true ∧
    (serialize ⟨GroupStatus.unresolved, false⟩ (some 7) none none none noPrefs
      3 0).subscriptionDetails = SubscriptionDetails.absent := by
  have h := claim_C3 ⟨GroupStatus.unresolved, false⟩ 7 none none noPrefs 3 0 _ rfl
  exact ⟨h.2.2.1 rfl rfl, h.2.2.2.1 rfl⟩

/-- C4: for every group whose stored status is UNRESOLVED and for which
is_over_resolve_age() returns true, serialize reports status "resolved"
with statusDetails autoResolved; and when the stored status is not
UNRESOLVED the autoResolved detail is never produced. -/
theorem claim_C4 (g : Group) (user : Option Nat) (snooze : Option GroupSnooze)
    (resolution : Option GroupResolution) (subscription : Option GroupSubscription)
    (prefLookup : Nat → Option Nat → Option UserOptionValue) (projectId : Nat)
    (now : Int) (r : SerializedGroup)
    (hr : serialize g user snooze resolution subscription prefLookup projectId now = r) :
    (g.status = GroupStatus.unresolved → g.is_over_resolve_age = true →
      r.status = "resolved" ∧ r.statusDetails = StatusDetails.autoResolved) ∧
    (g.status ≠ GroupStatus.unresolved → r.statusDetails ≠ StatusDetails.autoResolved) := by
  subst hr
  constructor
  · intro hg hage
    simp [serialize, serializeStatus, hg, hage]
  · intro hg
    cases hst : g.status with
    | unresolved => exact absurd hst hg
    | resolved =>
      cases resolution with
      | none => simp [serialize, serializeStatus, hst]
      | some res => simp [serialize, serializeStatus, hst]; split <;> simp
    | ignored =>
      cases snooze with
      | none => simp [serialize, serializeStatus, hst]
      | some s => simp [serialize, serializeStatus, hst]; split <;> simp

/-- C4 witness: a concrete unresolved group over its resolve age is
reported resolved with autoResolved details. -/
theorem claim_C4_witness :
    (serialize ⟨GroupStatus.unresolved, true⟩ (some 1) none none none noPrefs
      1 0).status = "resolved" ∧
    (serialize ⟨GroupStatus.unresolved, true⟩ (some 1) none none none noPrefs
      1 0).statusDetails = StatusDetails.autoResolved :=
  (claim_C4 ⟨GroupStatus.unresolved, true⟩ (some 1) none none none noPrefs
    1 0 _ rfl).1 rfl rfl

/-- C5: for every group whose stored status is RESOLVED and that has a
Resolution record linked to a release whose own status is still pending,
serialize reports status "resolved" with statusDetails inNextRelease. -/
theorem claim_C5 (g : Group) (user : Option Nat) (snooze : Option GroupSnooze)
    (res : GroupResolution) (rel : Nat) (subscription : Option GroupSubscription)
    (prefLookup : Nat → Option Nat → Option UserOptionValue) (projectId : Nat)
    (now : Int) (r : SerializedGroup)
    (hg : g.status = GroupStatus.resolved)
    (hrel : res.release = some rel)
    (hst : res.status = GroupResolutionStatus.pending)
    (hr : serialize g user snooze (some res) subscription prefLookup projectId now = r) :
    r.status = "resolved" ∧ r.statusDetails = StatusDetails.inNextRelease := by
  subst hr
  simp [serialize, serializeStatus, hg, hrel, hst]

/-- C5 witness: a concrete resolved group with a pending resolution linked
to a release is reported resolved with inNextRelease details. -/
theorem claim_C5_witness :
    (serialize ⟨GroupStatus.resolved, false⟩ (some 1) none
      (some ⟨some 10, GroupResolutionStatus.pending⟩) none noPrefs 1 0).status
        = "resolved" ∧
    (serialize ⟨GroupStatus.resolved, false⟩ (some 1) none
      (some ⟨some 10, GroupResolutionStatus.pending⟩) none noPrefs 1 0).statusDetails
        = StatusDetails.inNextRelease :=
  claim_C5 ⟨GroupStatus.resolved, false⟩ (some 1) none
    ⟨some 10, GroupResolutionStatus.pending⟩ 10 none noPrefs 1 0 _ rfl rfl rfl rfl

/-- C6: for every group whose stored status is RESOLVED and whose
Resolution record's status is already resolved (fired), serialize reports
status "resolved" with empty statusDetails: the inNextRelease detail is
no longer reported. -/
theorem claim_C6 (g : Group) (user : Option Nat) (snooze : Option GroupSnooze)
    (res : GroupResolution) (subscription : Option GroupSubscription)
    (prefLookup : Nat → Option Nat → Option UserOptionValue) (projectId : Nat)
    (now : Int) (r : SerializedGroup)
    (hg : g.status = GroupStatus.resolved)
    (hst : res.status = GroupResolutionStatus.resolved)
    (hr : serialize g user snooze (some res) subscription prefLookup projectId now = r) :
    r.status = "resolved" ∧ r.statusDetails = StatusDetails.empty := by
  subst hr
  simp [serialize, serializeStatus, hg, hst]

/-- C6 witness: a concrete resolved group whose resolution already fired
is reported resolved with empty details. -/
theorem claim_C6_witness :
    (serialize ⟨GroupStatus.resolved, false⟩ (some 1) none
      (some ⟨some 10, GroupResolutionStatus.resolved⟩) none noPrefs 1 0).status
        = "resolved" ∧
    (serialize ⟨GroupStatus.resolved, false⟩ (some 1) none
      (some ⟨some 10, GroupResolutionStatus.resolved⟩) none noPrefs 1 0).statusDetails
        = StatusDetails.empty :=
  claim_C6 ⟨GroupStatus.resolved, false⟩ (some 1) none
    ⟨some 10, GroupResolutionStatus.resolved⟩ none noPrefs 1 0 _ rfl rfl rfl

/-- C7: for every viewing user with an explicit Subscription record for
the group and an effective preference other than no_conversations: if the
subscription is active and no reason was set (the stored reason is the
default "unknown"), serialize returns isSubscribed = true with
subscriptionDetails reason "unknown"; if the subscription is inactive it
returns isSubscribed = false and no subscriptionDetails. -/
theorem claim_C7 (g : Group) (u : Nat) (snooze : Option GroupSnooze)
    (resolution : Option GroupResolution) (s : GroupSubscription)
    (prefLookup : Nat → Option Nat → Option UserOptionValue) (projectId : Nat)
    (now : Int) (r : SerializedGroup)
    (hpref : effectivePreference (prefLookup u (some projectId)) (prefLookup u none)
      ≠ UserOptionValue.no_conversations)
    (hr : serialize g (some u) snooze resolution (some s) prefLookup projectId now = r) :
    (s.is_active = true → s.reason = "unknown" →
      r.isSubscribed = true ∧ r.subscriptionDetails = SubscriptionDetails.reason "unknown") ∧
    (s.is_active = false →
      r.isSubscribed = false ∧ r.subscriptionDetails = SubscriptionDetails.absent) := by
  subst hr
  constructor
  · intro hact hreason
    simp [serialize, serializeSubscription, hpref, hact, hreason]
  · intro hact
    simp [serialize, serializeSubscription, hpref, hact]

/-- C7 witness: a concrete user with no preference set and an active
explicit subscription with the default reason is reported subscribed with
reason "unknown". -/
theorem claim_C7_witness :
    (serialize ⟨GroupStatus.unresolved, false⟩ (some 1) none none
      (some ⟨true, "unknown"⟩) noPrefs 1 0).isSubscribed = true ∧
    (serialize ⟨GroupStatus.unresolved, false⟩ (some 1) none none
      (some ⟨true, "unknown"⟩) noPrefs 1 0).subscriptionDetails
        = SubscriptionDetails.reason "unknown" :=
  (claim_C7 ⟨GroupStatus.unresolved, false⟩ 1 none none ⟨true, "unknown"⟩
    noPrefs 1 0 _ (by simp [noPrefs, effectivePreference]) rfl).1 rfl rfl

/-- C8: for every group, when serialize is invoked without a viewing user
the result has isSubscribed = false and no subscriptionDetails key; the
absence of a user is handled by the total function itself, not a
failure. -/
theorem claim_C8 (g : Group) (snooze : Option GroupSnooze)
    (resolution : Option GroupResolution) (subscription : Option GroupSubscription)
    (prefLookup : Nat → Option Nat → Option UserOptionValue) (projectId : Nat)
    (now : Int) :
    (serialize g none snooze resolution subscription prefLookup projectId
      now).isSubscribed = false ∧
    (serialize g none snooze resolution subscription prefLookup projectId
      now).subscriptionDetails = SubscriptionDetails.absent :=
  ⟨rfl, rfl⟩

/-!
The processing-issue schema (src/sentry/models/processingissue.py):
`ProcessingIssue` has fields project, type, key, data and the constraint
unique_together (project, type, key); `ProcessingIssueGroup` has fields
group, release (nullable), issue, data and the constraint unique_together
(group, release, issue).  Both are plain data records; their store is
modelled as lists of rows with identifiers, and record creation enforces
the declared unique constraints the way the database does, by rejecting
a duplicate.
-/

/-- A ProcessingIssue record as declared in the source: a project
reference, a type, a key and a gzipped dictionary payload. -/
structure ProcessingIssue where
  project : Nat
  type : String
  key : String
  data : List (String × String)
deriving DecidableEq, Repr

/-- The column combination covered by ProcessingIssue's unique_together
declaration: (project, type, key). -/
def ProcessingIssue.uniqueKey (i : ProcessingIssue) : Nat × String × String :=
  (i.project, i.type, i.key)

/-- A ProcessingIssueGroup record as declared in the source: a group
reference, a nullable release reference, a ProcessingIssue reference and
a gzipped dictionary payload. -/
structure ProcessingIssueGroup where
  group : Nat
  release : Option Nat
  issue : Nat
  data : List (String × String)
deriving DecidableEq, Repr

/-- The column combination covered by ProcessingIssueGroup's
unique_together declaration: (group, release, issue). -/
def ProcessingIssueGroup.uniqueKey (l : ProcessingIssueGroup) :
    Nat × Option Nat × Nat :=
  (l.group, l.release, l.issue)

/-- The store of both tables: rows paired with their primary keys. -/
structure ProcessingStore where
  issues : List (Nat × ProcessingIssue)
  links : List (Nat × ProcessingIssueGroup)
  nextIssueId : Nat
  nextLinkId : Nat
deriving DecidableEq, Repr

/-- The empty store. -/
def ProcessingStore.empty : ProcessingStore :=
  { issues := [], links := [], nextIssueId := 1, nextLinkId := 1 }

/-- Insertion of a ProcessingIssue row; the database rejects a row whose
(project, type, key) combination is already present, per the
unique_together declaration. -/
def ProcessingStore.createIssue (s : ProcessingStore) (i : ProcessingIssue) :
    Option ProcessingStore :=
  if s.issues.any (fun p => p.2.uniqueKey == i.uniqueKey) then none
  else some { s with issues := (s.nextIssueId, i) :: s.issues
                     nextIssueId := s.nextIssueId + 1 }

/-- Insertion of a ProcessingIssueGroup row; the database rejects a row
whose (group, release, issue) combination is already present, per the
unique_together declaration. -/
def ProcessingStore.createLink (s : ProcessingStore) (l : ProcessingIssueGroup) :
    Option ProcessingStore :=
  if s.links.any (fun p => p.2.uniqueKey == l.uniqueKey) then none
  else some { s with links := (s.nextLinkId, l) :: s.links
                     nextLinkId := s.nextLinkId + 1 }

/-- The store states reachable from the empty store through successful
record creations. -/
inductive ProcessingStore.Reachable : ProcessingStore → Prop
  | init : ProcessingStore.Reachable ProcessingStore.empty
  | createIssue {s s2 : ProcessingStore} {i : ProcessingIssue} :
      ProcessingStore.Reachable s → s.createIssue i = some s2 →
      ProcessingStore.Reachable s2
  | createLink {s s2 : ProcessingStore} {l : ProcessingIssueGroup} :
      ProcessingStore.Reachable s → s.createLink l = some s2 →
      ProcessingStore.Reachable s2

/-- At most one ProcessingIssue row per (project, type, key). -/
def ProcessingStore.issuesUnique (s : ProcessingStore) : Prop :=
  s.issues.Pairwise (fun a b => a.2.uniqueKey ≠ b.2.uniqueKey)

/-- At most one ProcessingIssueGroup row per (group, release, issue). -/
def ProcessingStore.linksUnique (s : ProcessingStore) : Prop :=
  s.links.Pairwise (fun a b => a.2.uniqueKey ≠ b.2.uniqueKey)

/-- C9: in every reachable store state there is at most one
ProcessingIssue record per (project, type, key) combination and at most
one ProcessingIssueGroup record per (group, release, issue)
combination. -/
theorem claim_C9 (s : ProcessingStore) (h : ProcessingStore.Reachable s) :
    s.issuesUnique ∧ s.linksUnique := by
  induction h with
  | init => exact ⟨List.Pairwise.nil, List.Pairwise.nil⟩
  | @createIssue s1 s2 i hre hc ih =>
    rw [ProcessingStore.createIssue] at hc
    by_cases hdup : s1.issues.any (fun p => p.2.uniqueKey == i.uniqueKey) = true
    · rw [if_pos hdup] at hc
      exact absurd hc (by simp)
    · rw [if_neg hdup] at hc
      obtain rfl := Option.some.inj hc
      simp only [List.any_eq_true, beq_iff_eq, not_exists, not_and] at hdup
      refine ⟨List.pairwise_cons.mpr ⟨?_, ih.1⟩, ih.2⟩
      intro b hb heq
      exact hdup b hb heq.symm
  | @createLink s1 s2 l hre hc ih =>
    rw [ProcessingStore.createLink] at hc
    by_cases hdup : s1.links.any (fun p => p.2.uniqueKey == l.uniqueKey) = true
    · rw [if_pos hdup] at hc
      exact absurd hc (by simp)
    · rw [if_neg hdup] at hc
      obtain rfl := Option.some.inj hc
      simp only [List.any_eq_true, beq_iff_eq, not_exists, not_and] at hdup
      refine ⟨ih.1, List.pairwise_cons.mpr ⟨?_, ih.2⟩⟩
      intro b hb heq
      exact hdup b hb heq.symm

/-- C9 witness: the store reached by creating one issue and one link from
the empty store satisfies both uniqueness invariants. -/
theorem claim_C9_witness :
    ProcessingStore.issuesUnique
      { issues := [(1, ⟨1, "t", "k", []⟩)]
        links := [(1, ⟨2, some 3, 1, []⟩)]
        nextIssueId := 2, nextLinkId := 2 } ∧
    ProcessingStore.linksUnique
      { issues := [(1, ⟨1, "t", "k", []⟩)]
        links := [(1, ⟨2, some 3, 1, []⟩)]
        nextIssueId := 2, nextLinkId := 2 } :=
  claim_C9 _
    (ProcessingStore.Reachable.createLink
      (ProcessingStore.Reachable.createIssue ProcessingStore.Reachable.init rfl)
      rfl)

/-!
The manager installed on ProcessingIssue (objects =
ReleaseProblemManager()) exposes record_problem(release, key, data),
which calls Django's update_or_create with the lookup keywords release
and key.  Django resolves lookup keyword names against the model's
fields when building the query and raises FieldError for an unknown
name; that framework contract is modelled below over rows as field-name
to value assignments.
-/

/-- A field value of a database row. -/
inductive FieldVal
  | nat (n : Nat)
  | str (s : String)
  | dict (d : List (String × String))
deriving DecidableEq, Repr

/-- A database row: an assignment of values to field names. -/
abbrev Row := List (String × FieldVal)

/-- The errors of Django's query interface that can arise here:
FieldError for a lookup keyword that is not a field of the model, and
MultipleObjectsReturned from get() when several rows match. -/
inductive DjangoError
  | fieldError (fieldName : String)
  | multipleObjectsReturned
deriving DecidableEq, Repr

/-- The field names of the ProcessingIssue model, straight from its
class body: the implicit primary key id plus project, type, key and
data. -/
def processingIssueFieldNames : List String :=
  ["id", "project", "type", "key", "data"]

/-- A table of rows, each carrying its primary key, with an id counter. -/
structure Table where
  rows : List (Nat × Row)
  nextId : Nat
deriving DecidableEq, Repr

/-- Whether a row satisfies every keyword filter. -/
def rowMatches (kwargs : List (String × FieldVal)) (row : Row) : Bool :=
  kwargs.all (fun kv => row.lookup kv.1 == some kv.2)

/-- Overwrite the fields named in defaults, leaving the rest unchanged. -/
def applyDefaults (defaults : List (String × FieldVal)) (row : Row) : Row :=
  row.map (fun f =>
    match defaults.lookup f.1 with
    | some v => (f.1, v)
    | none => f)

/-- Django's QuerySet.update_or_create(defaults, kwargs) against a table
of a model with the given field names: each lookup keyword name is
resolved against the model's fields and an unknown one raises
FieldError; otherwise the single row matching kwargs has the defaults
applied to it (created = false), a fresh row built from kwargs and
defaults is inserted when none matches (created = true), and several
matches raise MultipleObjectsReturned.  Returns the (object, created)
pair together with the updated table. -/
def updateOrCreate (fieldNames : List String) (t : Table)
    (kwargs defaults : List (String × FieldVal)) :
    Except DjangoError (((Nat × Row) × Bool) × Table) :=
  match kwargs.find? (fun kv => !(fieldNames.contains kv.1)) with
  | some kv => Except.error (DjangoError.fieldError kv.1)
  | none =>
    match t.rows.filter (fun r => rowMatches kwargs r.2) with
    | [] =>
      let row := kwargs ++ defaults
      Except.ok (((t.nextId, row), true),
        { rows := t.rows ++ [(t.nextId, row)], nextId := t.nextId + 1 })
    | [(rid, row)] =>
      let row2 := applyDefaults defaults row
      Except.ok (((rid, row2), false),
        { t with rows := t.rows.map (fun r => if r.1 == rid then (rid, row2) else r) })
    | _ => Except.error DjangoError.multipleObjectsReturned

/-- ReleaseProblemManager.record_problem as installed on ProcessingIssue:
update_or_create with lookup keywords release and key and with data as
the defaults, keeping the first component of the returned pair. -/
def record_problem (t : Table) (release : Nat) (key : String)
    (data : List (String × String)) : Except DjangoError ((Nat × Row) × Table) :=
  match updateOrCreate processingIssueFieldNames t
      [("release", FieldVal.nat release), ("key", FieldVal.str key)]
      [("data", FieldVal.dict data)] with
  | Except.error e => Except.error e
  | Except.ok ((obj, _created), t2) => Except.ok (obj, t2)

/-- C10: record_problem never returns a record at all: for every store
and every input it raises FieldError on the lookup keyword release,
because ProcessingIssue has no release field (its fields are project,
type, key, data); the manager method belongs to a release-keyed model
and cannot run against the model it is installed on. -/
theorem claim_C10 (t : Table) (release : Nat) (key : String)
    (data : List (String × String)) :
    record_problem t release key data
      = Except.error (DjangoError.fieldError "release") := rfl

end Sentry
